import Mathlib

/-!
Verification development for the browser chat application (ai-chat-bot).

The definitions below are a shallow embedding of the application logic:
the voice selector, the purpose fallback on character save, the analysis
precondition, the model-reply decoder, and the engagement scheduler
(greeting and inactivity timers) of the root App component.

Modelling conventions:
- JavaScript strings are Lean String values; string primitives that the
  code uses (toLowerCase, includes, startsWith, split, trim, charCodeAt)
  are re-implemented over the character list so that every definition
  evaluates inside the kernel.
- JSON.parse and the network are platform primitives external to the
  repository; their outcome is passed in (RawReply.parsed is none when
  JSON.parse throws, a gateway call outcome is an Except value).
- Array.prototype.sort with a comparator is stable (ES2019); it is
  modelled by the stable List.insertionSort with the same comparator
  read as a relation.
- The two setTimeout refs of the App component each hold at most one
  handle; they are modelled as Bool flags (armed or not).  The event
  loop is single threaded and every send is gated on the isLoading
  flag, so each handler runs to completion atomically at event level.
-/

/-- Prefix test on character lists: charsLead needle hay is true when
needle is an initial segment of hay.  Models String.prototype.startsWith. -/
def charsLead : List Char → List Char → Bool
  | [], _ => true
  | _ :: _, [] => false
  | a :: as, b :: bs => a == b && charsLead as bs

/-- Contiguous substring test on character lists.
Models String.prototype.includes. -/
def charsContain : List Char → List Char → Bool
  | [], needle => needle.isEmpty
  | c :: rest, needle => charsLead needle (c :: rest) || charsContain rest needle

/-- Substring test on strings: strIncludes s sub models s.includes(sub). -/
def strIncludes (s sub : String) : Bool := charsContain s.data sub.data

/-- Lower-cased name of a string, models s.toLowerCase() on the ASCII
voice names the scorer inspects. -/
def strLower (s : String) : String := String.mk (s.data.map Char.toLower)

/-- Models s.startsWith(p). -/
def strStarts (s p : String) : Bool := charsLead p.data s.data

/-- Sum of the character codes of a string, models
s.split(two apostrophes).reduce((acc, char) => acc + char.charCodeAt(0), 0)
on the ASCII persona ids the application generates. -/
def charCodeSum (s : String) : Nat := (s.data.map Char.toNat).sum

/-- Blankness test used by the save handler: true when the optional
purpose is absent, empty or whitespace-only.
Models the JavaScript falsiness of purpose?.trim(). -/
def isBlankPurpose (p : Option String) : Bool :=
  (p.getD "").data.all Char.isWhitespace

/-- Message role, source type Message.role. -/
inductive Role
  | user
  | model
  deriving DecidableEq

/-- Conversation mode of the chat window, source type chatMode. -/
inductive ChatMode
  | normal
  | game
  deriving DecidableEq

/-- Gender category of a character, source type Character.gender. -/
inductive Gender
  | male
  | female
  | neutral
  deriving DecidableEq

/-- Voice pitch category, source type Character.voiceProfile. -/
inductive VoiceProfile
  | low
  | medium
  | high
  deriving DecidableEq

/-- Voice rate category, source type Character.voiceSpeed. -/
inductive VoiceSpeed
  | slow
  | normal
  | fast
  deriving DecidableEq

/-- One turn of a conversation, source interface Message in types.ts.
The image fields are omitted: no claim and no modelled handler touches
them. -/
structure Message where
  id : String
  role : Role
  text : String
  thought : Option String := none
  action : Option String := none
  userResponseOptions : Option (List String) := none
  deriving DecidableEq

/-- A user-authored AI character, source interface Character in types.ts. -/
structure Character where
  id : String
  name : String
  avatar : String
  personality : String
  memory : String
  purpose : Option String := none
  gender : Gender
  language : String
  voiceProfile : VoiceProfile
  voiceSpeed : VoiceSpeed
  deriving DecidableEq

/-- A speech synthesis voice, the fields of SpeechSynthesisVoice that
getCharacterVoice reads. -/
structure Voice where
  name : String
  lang : String
  localService : Bool
  default : Bool
  deriving DecidableEq

/-- The JSON shape the model is asked to produce, source response schema
of getModelConfig.  Absent optional fields are none. -/
structure ReplyJson where
  dialogue : Option String := none
  thought : Option String := none
  action : Option String := none
  user_response_options : Option (List String) := none
  deriving DecidableEq

/-- Raw gateway reply: the response text together with the outcome of
JSON.parse on it.  parsed is none exactly when JSON.parse throws; the
parser itself is a platform primitive outside this repository. -/
structure RawReply where
  text : String
  parsed : Option ReplyJson
  deriving DecidableEq

/-- The structured personality report, source interface UserAnalysis. -/
structure UserAnalysis where
  personality_traits : String
  communication_style : String
  potential_interests : List String
  emotional_summary : String
  key_motivators : String
  deriving DecidableEq

/-- The fixed pool of fallback purposes, source constant RANDOM_PURPOSES. -/
def RANDOM_PURPOSES : List String :=
  [ "To convince the user to invest in a new, slightly absurd invention.",
    "To find a missing piece of an ancient artifact and believes the user knows something about it.",
    "To recruit the user for a secret society that communicates exclusively through puns.",
    "To get advice on a difficult personal problem, like how to tell their robot pet it\x27s adopted.",
    "To plan the perfect surprise party for a mutual friend who might be a figment of their imagination.",
    "To seek help in solving a cryptic riddle that was left on a napkin.",
    "To borrow a cup of sugar, but for a strange, otherworldly recipe.",
    "To find a worthy opponent for a high-stakes game of intergalactic chess." ]

/-- Error text appended by the send path when the gateway call fails. -/
def sendErrorText : String :=
  "Oops! Something went wrong. Please check your API key and try again."

/-- Fallback text of the send path when the reply is unparsable and empty. -/
def sendFallbackText : String := "I seem to be having trouble thinking straight..."

/-- Fallback text of the follow-up path when the reply is unparsable and empty. -/
def followUpFallbackText : String := "Hmm..?"

/-- Fallback text of the greeting path when the reply is unparsable and empty. -/
def greetingFallbackText : String := "Hello there."

/-- Placeholder used when the parsed reply carries no dialogue text. -/
def missingDialogueText : String := "..."

/-- Decoding policy of every gateway call site: on parse success map the
JSON fields into a model Message, an absent or empty dialogue falling
back to an ellipsis; on parse failure build a Message whose text is the
raw reply verbatim, or the fixed per-site fallback when even the raw
reply is empty.  The decoder is a total function: it raises nothing. -/
def decodeReply (freshId fallback : String) (r : RawReply) : Message :=
  match r.parsed with
  | some j =>
      { id := freshId
        role := Role.model
        text := match j.dialogue with
          | some d => if d = "" then missingDialogueText else d
          | none => missingDialogueText
        thought := j.thought
        action := j.action
        userResponseOptions := j.user_response_options }
  | none =>
      { id := freshId
        role := Role.model
        text := if r.text = "" then fallback else r.text }

/-- Keywords whose presence in a voice name suggests a male voice,
source list maleKeywords in getCharacterVoice. -/
def maleKeywords : List String :=
  ["male", "david", "mark", "james", "tom", "alex", "daniel", "fred", "rishi"]

/-- Keywords whose presence in a voice name suggests a female voice,
source list femaleKeywords in getCharacterVoice. -/
def femaleKeywords : List String :=
  ["female", "zira", "susan", "linda", "hazel", "karen", "moira", "samantha", "tessa"]

/-- Score of one voice for one character, the per-element value computed
inside the sort comparator of getCharacterVoice: gender keyword match
+100, opposite keyword -50 (both skipped for neutral), +10 local,
+5 google, +3 microsoft in the name, -1 for the platform default. -/
def voiceScore (c : Character) (v : Voice) : Int :=
  let n := strLower v.name
  let genderScore : Int :=
    if c.gender = Gender.neutral then 0
    else
      let target := if c.gender = Gender.male then maleKeywords else femaleKeywords
      let opposite := if c.gender = Gender.male then femaleKeywords else maleKeywords
      (if target.any (fun kw => strIncludes n kw) then (100 : Int) else 0)
        + (if opposite.any (fun kw => strIncludes n kw) then (-50 : Int) else 0)
  genderScore
    + (if v.localService then (10 : Int) else 0)
    + (if strIncludes n "google" then (5 : Int) else 0)
    + (if strIncludes n "microsoft" then (3 : Int) else 0)
    + (if v.default then (-1 : Int) else 0)

/-- Language filter stage of getCharacterVoice: keep the voices whose
lang starts with the first component of the character language
(defaulting to en-US when the field is empty), falling back to voices
whose lang starts with en when that filter is empty. -/
def langFilteredVoices (c : Character) (voices : List Voice) : List Voice :=
  let lang := if c.language = "" then "en-US" else c.language
  let root := String.mk (lang.data.takeWhile (fun ch => ch != '-'))
  let first := voices.filter (fun v => strStarts v.lang root)
  if first.isEmpty then voices.filter (fun v => strStarts v.lang "en") else first

/-- Sort stage of getCharacterVoice: the language-filtered voices in
stable descending score order, the comparator (a, b) => scoreB - scoreA
of the source read as the relation score b <= score a. -/
def sortedLangVoices (c : Character) (voices : List Voice) : List Voice :=
  List.insertionSort (fun a b => voiceScore c b ≤ voiceScore c a)
    (langFilteredVoices c voices)

/-- Voice selector, source function getCharacterVoice: language filter,
stable score sort, then the element at index charCodeSum(id) modulo the
length of the whole sorted list. -/
def getCharacterVoice (c : Character) (voices : List Voice) : Option Voice :=
  if voices.isEmpty then none
  else if (langFilteredVoices c voices).isEmpty then voices.head?
  else
    let sortedVoices := sortedLangVoices c voices
    if sortedVoices.isEmpty then
      ((langFilteredVoices c voices).head?).orElse (fun _ => voices.head?)
    else
      sortedVoices[charCodeSum c.id % sortedVoices.length]?

/-- Purpose fallback of handleSaveCharacter: when the purpose is blank,
replace it by the pool entry at a random index; r stands for the value
Math.floor(Math.random() * RANDOM_PURPOSES.length), always in range, so
taking it modulo the pool length is the identity on the values the
source produces. -/
def handleSaveCharacter (c : Character) (r : Nat) : Character :=
  if isBlankPurpose c.purpose then
    { c with purpose := some (RANDOM_PURPOSES.getD (r % RANDOM_PURPOSES.length) "") }
  else c

/-- Number of user-role turns in a history, the userMessages length
check of handleAnalyzeUser. -/
def userTurnCount (hist : List Message) : Nat :=
  (hist.filter (fun m => m.role == Role.user)).length

/-- The App state fields that handleAnalyzeUser touches. -/
structure AnalysisState where
  isAnalyzing : Bool
  isAnalysisModalOpen : Bool
  analysisResult : Option UserAnalysis
  deriving DecidableEq

/-- Analysis requestor, source handleAnalyzeUser.  The returned triple is
the new state, the number of external model calls performed, and whether
a user-visible notice (alert) was shown.  With no active character it
returns early; with fewer than two user turns it shows the notice and
performs no call; otherwise it opens the modal, performs exactly one
call, and either stores the report or (on failure) alerts and closes
the modal. -/
def handleAnalyzeUser (activeId : Option String) (hist : List Message)
    (st : AnalysisState) (result : Except Unit UserAnalysis) :
    AnalysisState × Nat × Bool :=
  match activeId with
  | none => (st, 0, false)
  | some _ =>
    if userTurnCount hist < 2 then (st, 0, true)
    else
      let st1 := { st with isAnalyzing := true, isAnalysisModalOpen := true,
                           analysisResult := none }
      match result with
      | Except.ok rep =>
          ({ st1 with analysisResult := some rep, isAnalyzing := false }, 1, false)
      | Except.error _ =>
          ({ st1 with isAnalysisModalOpen := false, isAnalyzing := false }, 1, true)

/-- Scheduler-relevant state of the App component for the active
character: its message history, the two single-slot timer refs
(inactivityTimerRef, proactiveGreetingTimerRef) as armed flags, the
followUpSentRef guard, the isLoading flag and the chat mode. -/
structure SchedState where
  history : List Message
  inactivityTimer : Bool
  greetingTimer : Bool
  followUpSent : Bool
  isLoading : Bool
  chatMode : ChatMode
  deriving DecidableEq

/-- React effect on activeCharacterId and chats changes: its cleanup
clears the greeting timer, the body re-arms it exactly when the active
history is empty.  Net effect after every history or selection change:
the greeting timer is armed iff the history is empty. -/
def greetingEffect (s : SchedState) : SchedState :=
  { s with greetingTimer := s.history.isEmpty }

/-- The user message object built by handleSendMessage. -/
def userMessageOf (msgId text : String) : Message :=
  { id := msgId, role := Role.user, text := text }

/-- The error message object appended by the send path on gateway failure. -/
def sendErrorMessage (errId : String) : Message :=
  { id := errId, role := Role.model, text := sendErrorText }

/-- State of handleSendMessage at the moment the gateway call is issued:
both timers cleared and the follow-up guard reset, the user message
appended (running the greeting effect on the chats change), loading on. -/
def sendMessagePreCall (s : SchedState) (msgId text : String) : SchedState :=
  let s1 := { s with inactivityTimer := false, greetingTimer := false,
                     followUpSent := false }
  greetingEffect { s1 with history := s1.history ++ [userMessageOf msgId text],
                           isLoading := true }

/-- Send path, source handleSendMessage: cancel both timers, reset the
follow-up guard, append the user turn, issue the gateway call; on
success decode and append the reply and re-arm the inactivity timer in
normal mode only; on transport failure append the fixed error message.
In both cases loading stops.  msgId, replyId, errId stand for the
crypto.randomUUID() values. -/
def handleSendMessage (s : SchedState) (msgId replyId errId text : String)
    (result : Except Unit RawReply) : SchedState :=
  let s2 := sendMessagePreCall s msgId text
  match result with
  | Except.ok r =>
      let aiMessage := decodeReply replyId sendFallbackText r
      let s3 := greetingEffect { s2 with history := s2.history ++ [aiMessage] }
      let s4 := if s3.chatMode = ChatMode.normal then { s3 with inactivityTimer := true }
                else s3
      { s4 with isLoading := false }
  | Except.error _ =>
      let s3 := greetingEffect { s2 with history := s2.history ++ [sendErrorMessage errId] }
      { s3 with isLoading := false }

/-- Inactivity follow-up path, source handleSendFollowUp: return
unchanged when loading or when the follow-up guard is already set;
otherwise clear the inactivity timer, set the guard, issue the call; on
success append the decoded reply; on transport failure only the console
is written, nothing is appended.  No timer is re-armed on any branch. -/
def handleSendFollowUp (s : SchedState) (replyId : String)
    (result : Except Unit RawReply) : SchedState :=
  if s.isLoading || s.followUpSent then s
  else
    let s1 := { s with inactivityTimer := false, followUpSent := true,
                       isLoading := true }
    match result with
    | Except.ok r =>
        let aiMessage := decodeReply replyId followUpFallbackText r
        let s2 := greetingEffect { s1 with history := s1.history ++ [aiMessage] }
        { s2 with isLoading := false }
    | Except.error _ => { s1 with isLoading := false }

/-- Proactive greeting path, source handleProactiveGreeting: return
unchanged when loading or when the chat has already started; otherwise
clear the greeting timer, issue the call with empty history; on success
append the decoded greeting and arm the inactivity timer in normal mode
only; on transport failure only the console is written. -/
def handleProactiveGreeting (s : SchedState) (replyId : String)
    (result : Except Unit RawReply) : SchedState :=
  if s.isLoading then s
  else if !s.history.isEmpty then s
  else
    let s1 := { s with greetingTimer := false, isLoading := true }
    match result with
    | Except.ok r =>
        let aiMessage := decodeReply replyId greetingFallbackText r
        let s2 := greetingEffect { s1 with history := s1.history ++ [aiMessage] }
        let s3 := if s2.chatMode = ChatMode.normal then { s2 with inactivityTimer := true }
                  else s2
        { s3 with isLoading := false }
    | Except.error _ => { s1 with isLoading := false }

/-- External events driving the scheduler.  A fire event carries the
gateway outcome its handler would observe; a userSend carries the three
fresh ids, the text and the outcome. -/
inductive Event
  | selectPersona (hist : List Message)
  | setMode (m : ChatMode)
  | userSend (msgId replyId errId text : String) (result : Except Unit RawReply)
  | greetingFire (replyId : String) (result : Except Unit RawReply)
  | followUpFire (replyId : String) (result : Except Unit RawReply)

/-- True exactly for a user-submitted message event. -/
def isUserSend : Event → Bool
  | Event.userSend _ _ _ _ _ => true
  | _ => false

/-- One event step.  Selecting a persona runs the cleanup effect (both
timers cleared) followed by the greeting effect on the new history; a
timer can only fire while armed; a user send is ignored while loading
(the input form is disabled). -/
def step (s : SchedState) : Event → SchedState
  | Event.selectPersona hist =>
      greetingEffect { s with history := hist, inactivityTimer := false,
                              greetingTimer := false }
  | Event.setMode m => { s with chatMode := m }
  | Event.userSend a b c t result =>
      if s.isLoading then s else handleSendMessage s a b c t result
  | Event.greetingFire rid result =>
      if s.greetingTimer then handleProactiveGreeting s rid result else s
  | Event.followUpFire rid result =>
      if s.inactivityTimer then handleSendFollowUp s rid result else s

/-- True when the event makes the follow-up handler reach its gateway
call: an armed inactivity timer firing while not loading and with the
follow-up guard still clear. -/
def followUpIssued (s : SchedState) : Event → Bool
  | Event.followUpFire _ _ => s.inactivityTimer && !s.isLoading && !s.followUpSent
  | _ => false

/-- Number of follow-up messages actually issued along a run. -/
def issuedCount : SchedState → List Event → Nat
  | _, [] => 0
  | s, e :: rest =>
      (if followUpIssued s e then 1 else 0) + issuedCount (step s e) rest

/-- Appending one element never yields the empty list. -/
theorem isEmpty_append_singleton {α : Type} (l : List α) (x : α) :
    (l ++ [x]).isEmpty = false := by
  cases l <;> rfl

/-- C3: selecting a persona installs the selected history, clears any
previously armed greeting or inactivity timer (the single-slot refs are
cleared on switch), and arms the one greeting timer slot exactly when
the new conversation is empty. -/
theorem selectPersona_arms_greeting_iff_empty (s : SchedState) (hist : List Message) :
    (step s (Event.selectPersona hist)).greetingTimer = hist.isEmpty
    ∧ (step s (Event.selectPersona hist)).inactivityTimer = false
    ∧ (step s (Event.selectPersona hist)).history = hist :=
  ⟨rfl, rfl, rfl⟩

/-- C2: a user send clears both timer slots and the follow-up guard
before the gateway call is issued, and after the reply is appended the
single inactivity timer slot is armed exactly when the mode is normal,
with no greeting timer pending. -/
theorem userSend_cancels_timers_then_rearms (s : SchedState)
    (a b c t : String) (r : RawReply) :
    (sendMessagePreCall s a t).inactivityTimer = false
    ∧ (sendMessagePreCall s a t).greetingTimer = false
    ∧ (sendMessagePreCall s a t).followUpSent = false
    ∧ (handleSendMessage s a b c t (Except.ok r)).inactivityTimer
        = decide (s.chatMode = ChatMode.normal)
    ∧ (handleSendMessage s a b c t (Except.ok r)).greetingTimer = false := by
  refine ⟨rfl, ?_, rfl, ?_, ?_⟩
  · simp [sendMessagePreCall, greetingEffect, isEmpty_append_singleton]
  · by_cases h : s.chatMode = ChatMode.normal <;>
      simp [handleSendMessage, sendMessagePreCall, greetingEffect, h]
  · by_cases h : s.chatMode = ChatMode.normal <;>
      simp [handleSendMessage, sendMessagePreCall, greetingEffect, h,
        isEmpty_append_singleton]

/-- C5: on parse failure the decoder returns, without raising, a
model-role Message whose text is the raw reply verbatim when that is
non-empty, and the fixed per-site fallback string when the raw reply is
empty. -/
theorem malformed_reply_decodes_verbatim (freshId fallback raw : String) :
    (raw ≠ "" → decodeReply freshId fallback { text := raw, parsed := none }
        = { id := freshId, role := Role.model, text := raw })
    ∧ decodeReply freshId fallback { text := "", parsed := none }
        = { id := freshId, role := Role.model, text := fallback } := by
  constructor
  · intro h
    simp [decodeReply, h]
  · rfl

/-- Witness for C5 at a concrete unparsable, non-empty reply body. -/
theorem malformed_reply_decodes_verbatim_witness :
    decodeReply "m1" sendFallbackText { text := "not json", parsed := none }
      = { id := "m1", role := Role.model, text := "not json" } :=
  (malformed_reply_decodes_verbatim "m1" sendFallbackText "not json").1 (by decide)

/-- C8: saving a character with a blank (absent, empty or whitespace
only) purpose persists a non-empty purpose drawn from the fixed
eight-entry pool, and saving with a non-blank purpose keeps it
unchanged. -/
theorem saved_purpose_nonempty_from_pool (c : Character) (r : Nat) :
    (isBlankPurpose c.purpose = true →
        ∃ p, (handleSaveCharacter c r).purpose = some p
          ∧ p ∈ RANDOM_PURPOSES ∧ p ≠ "")
    ∧ (isBlankPurpose c.purpose = false →
        (handleSaveCharacter c r).purpose = c.purpose) := by
  constructor
  · intro h
    have hlt : r % RANDOM_PURPOSES.length < RANDOM_PURPOSES.length :=
      Nat.mod_lt _ (by decide)
    have hget : RANDOM_PURPOSES.getD (r % RANDOM_PURPOSES.length) ""
        = RANDOM_PURPOSES[r % RANDOM_PURPOSES.length] := by
      rw [List.getD_eq_getElem?_getD, List.getElem?_eq_getElem hlt]
      rfl
    refine ⟨RANDOM_PURPOSES.getD (r % RANDOM_PURPOSES.length) "", ?_, ?_, ?_⟩
    · simp [handleSaveCharacter, h]
    · rw [hget]
      exact List.getElem_mem hlt
    · have hall : ∀ p ∈ RANDOM_PURPOSES, p ≠ "" := by decide
      rw [hget]
      exact hall _ (List.getElem_mem hlt)
  · intro h
    simp [handleSaveCharacter, h]

/-- Character used to instantiate save-path and voice-path witnesses. -/
def sampleBlankCharacter : Character :=
  { id := "c1", name := "N", avatar := "", personality := "p", memory := "",
    purpose := some "   ", gender := Gender.neutral, language := "en-US",
    voiceProfile := VoiceProfile.medium, voiceSpeed := VoiceSpeed.normal }

/-- Witness for C8 at a whitespace-only purpose and random index 5. -/
theorem saved_purpose_nonempty_from_pool_witness :
    ∃ p, (handleSaveCharacter sampleBlankCharacter 5).purpose = some p
      ∧ p ∈ RANDOM_PURPOSES ∧ p ≠ "" :=
  (saved_purpose_nonempty_from_pool sampleBlankCharacter 5).1 (by decide)

/-- C9: with an active character but fewer than two user turns, the
analysis requestor performs zero external calls, changes no state, and
only shows a user-visible notice. -/
theorem analysis_requires_two_user_turns (id : String) (hist : List Message)
    (st : AnalysisState) (result : Except Unit UserAnalysis)
    (h : userTurnCount hist < 2) :
    handleAnalyzeUser (some id) hist st result = (st, 0, true) := by
  simp [handleAnalyzeUser, h]

/-- Analysis state used by the analysis witness. -/
def sampleAnalysisState : AnalysisState :=
  { isAnalyzing := false, isAnalysisModalOpen := false, analysisResult := none }

/-- Witness for C9 at a one-user-turn history. -/
theorem analysis_requires_two_user_turns_witness :
    handleAnalyzeUser (some "c1") [userMessageOf "u1" "hi"] sampleAnalysisState
        (Except.error ()) = (sampleAnalysisState, 0, true) :=
  analysis_requires_two_user_turns "c1" [userMessageOf "u1" "hi"]
    sampleAnalysisState (Except.error ()) (by decide)

/-- The greeting handler never touches the follow-up guard. -/
theorem greeting_preserves_followUpSent (s : SchedState) (rid : String)
    (result : Except Unit RawReply) :
    (handleProactiveGreeting s rid result).followUpSent = s.followUpSent := by
  unfold handleProactiveGreeting
  split
  · rfl
  · split
    · rfl
    · cases result with
      | ok r =>
          dsimp only [greetingEffect]
          split <;> rfl
      | error u => rfl

/-- A follow-up fire with the guard already set leaves the state untouched. -/
theorem followUp_blocked_when_sent (s : SchedState) (rid : String)
    (result : Except Unit RawReply) (hs : s.followUpSent = true) :
    handleSendFollowUp s rid result = s := by
  unfold handleSendFollowUp
  simp [hs]

/-- An issued follow-up sets the guard and leaves no armed inactivity
timer behind. -/
theorem followUpSent_after_issue (s : SchedState) (e : Event)
    (h : followUpIssued s e = true) :
    (step s e).followUpSent = true ∧ (step s e).inactivityTimer = false := by
  cases e with
  | selectPersona hist => simp [followUpIssued] at h
  | setMode m => simp [followUpIssued] at h
  | userSend a b c t result => simp [followUpIssued] at h
  | greetingFire rid result => simp [followUpIssued] at h
  | followUpFire rid result =>
      simp only [followUpIssued, Bool.and_eq_true, Bool.not_eq_true'] at h
      obtain ⟨⟨h1, h2⟩, h3⟩ := h
      cases result with
      | ok r => simp [step, handleSendFollowUp, greetingEffect, h1, h2, h3]
      | error u => simp [step, handleSendFollowUp, h1, h2, h3]

/-- The follow-up guard survives every event except a user send. -/
theorem sent_preserved_without_userSend (s : SchedState) (e : Event)
    (hs : s.followUpSent = true) (he : isUserSend e = false) :
    (step s e).followUpSent = true := by
  cases e with
  | selectPersona hist => simpa [step, greetingEffect] using hs
  | setMode m => simpa [step] using hs
  | userSend a b c t result => simp [isUserSend] at he
  | greetingFire rid result =>
      by_cases hg : s.greetingTimer
      · simpa [step, hg, greeting_preserves_followUpSent] using hs
      · simpa [step, hg] using hs
  | followUpFire rid result =>
      by_cases hi : s.inactivityTimer
      · simpa [step, hi, followUp_blocked_when_sent s rid result hs] using hs
      · simpa [step, hi] using hs

/-- No event can issue a follow-up while the guard is set. -/
theorem issued_false_of_sent (s : SchedState) (e : Event)
    (hs : s.followUpSent = true) : followUpIssued s e = false := by
  cases e <;> simp [followUpIssued, hs]

/-- With the guard set and no user send in the run, no follow-up is
ever issued. -/
theorem issuedCount_zero_of_sent (s : SchedState) (es : List Event)
    (hs : s.followUpSent = true) (hes : ∀ e ∈ es, isUserSend e = false) :
    issuedCount s es = 0 := by
  induction es generalizing s with
  | nil => rfl
  | cons e rest ih =>
      have h1 : followUpIssued s e = false := issued_false_of_sent s e hs
      have h2 : (step s e).followUpSent = true :=
        sent_preserved_without_userSend s e hs (hes e (List.mem_cons_self e rest))
      simp only [issuedCount, h1, Bool.false_eq_true, if_false, Nat.zero_add]
      exact ih (step s e) h2 (fun e' he' => hes e' (List.mem_cons_of_mem e he'))

/-- C1: along any run without a user send, at most one follow-up is
issued; the issuing step sets the guard and arms no further inactivity
timer (no auto-chaining); and a user send resets the guard to false. -/
theorem followUp_at_most_once_per_idle_period :
    (∀ s es, (∀ e ∈ es, isUserSend e = false) → issuedCount s es ≤ 1)
    ∧ (∀ s e, followUpIssued s e = true →
        (step s e).followUpSent = true ∧ (step s e).inactivityTimer = false)
    ∧ (∀ s a b c t result,
        (handleSendMessage s a b c t result).followUpSent = false) := by
  refine ⟨?_, followUpSent_after_issue, ?_⟩
  · intro s es
    induction es generalizing s with
    | nil => intro _; simp [issuedCount]
    | cons e rest ih =>
        intro hes
        by_cases hi : followUpIssued s e = true
        · have hsent := (followUpSent_after_issue s e hi).1
          have hz := issuedCount_zero_of_sent (step s e) rest hsent
            (fun e' he' => hes e' (List.mem_cons_of_mem e he'))
          simp [issuedCount, hi, hz]
        · have hb : followUpIssued s e = false := by
            simp only [Bool.not_eq_true] at hi
            exact hi
          simp only [issuedCount, hb, Bool.false_eq_true, if_false, Nat.zero_add]
          exact ih (step s e) (fun e' he' => hes e' (List.mem_cons_of_mem e he'))
  · intro s a b c t result
    cases result with
    | ok r =>
        unfold handleSendMessage
        dsimp only
        split <;> rfl
    | error u => rfl

/-- Scheduler state used by the trace witnesses: one user turn in the
history, an armed inactivity timer, guard clear, not loading. -/
def sampleSchedState : SchedState :=
  { history := [userMessageOf "u1" "hello"], inactivityTimer := true,
    greetingTimer := false, followUpSent := false, isLoading := false,
    chatMode := ChatMode.normal }

/-- Witness for C1: two consecutive inactivity fires with no user send
in between issue at most one follow-up. -/
theorem followUp_at_most_once_per_idle_period_witness :
    issuedCount sampleSchedState
      [Event.followUpFire "f1" (Except.error ()),
       Event.followUpFire "f2" (Except.error ())] ≤ 1 :=
  followUp_at_most_once_per_idle_period.1 sampleSchedState _ (by decide)

/-- C4 counterexample: a genuinely issued follow-up call whose transport
fails appends no message at all, so the failure does not surface as a
user-visible error Message (the claim asserts it does on every path). -/
theorem followUp_failure_swallowed_counterexample :
    followUpIssued sampleSchedState (Event.followUpFire "f1" (Except.error ())) = true
    ∧ (handleSendFollowUp sampleSchedState "f1" (Except.error ())).history
        = sampleSchedState.history
    ∧ (handleSendFollowUp sampleSchedState "f1" (Except.error ())).isLoading = false := by
  refine ⟨by decide, by decide, by decide⟩

/-- C4 as amended: only the send path inserts the fixed user-visible
error Message on transport failure; the greeting and follow-up paths
append nothing (the failure is only logged); all three paths stop the
loading indicator. -/
theorem transport_failure_per_path (s : SchedState) (a b c t rid gid : String)
    (h : s.isLoading = false) :
    (handleSendMessage s a b c t (Except.error ())).history
        = s.history ++ [userMessageOf a t, sendErrorMessage c]
    ∧ (handleSendMessage s a b c t (Except.error ())).isLoading = false
    ∧ (handleSendFollowUp s rid (Except.error ())).history = s.history
    ∧ (handleSendFollowUp s rid (Except.error ())).isLoading = false
    ∧ (handleProactiveGreeting s gid (Except.error ())).history = s.history
    ∧ (handleProactiveGreeting s gid (Except.error ())).isLoading = false := by
  refine ⟨?_, rfl, ?_, ?_, ?_, ?_⟩
  · simp [handleSendMessage, sendMessagePreCall, greetingEffect,
      sendErrorMessage, userMessageOf]
  · by_cases hf : s.followUpSent <;> simp [handleSendFollowUp, h, hf]
  · by_cases hf : s.followUpSent <;> simp [handleSendFollowUp, h, hf]
  · by_cases hh : s.history.isEmpty <;> simp [handleProactiveGreeting, h, hh]
  · by_cases hh : s.history.isEmpty <;> simp [handleProactiveGreeting, h, hh]

/-- Witness for the amended C4 at a concrete non-loading state. -/
theorem transport_failure_per_path_witness :
    (handleSendMessage sampleSchedState "u9" "r9" "e9" "hey" (Except.error ())).history
        = sampleSchedState.history ++ [userMessageOf "u9" "hey", sendErrorMessage "e9"]
    ∧ (handleSendMessage sampleSchedState "u9" "r9" "e9" "hey" (Except.error ())).isLoading = false
    ∧ (handleSendFollowUp sampleSchedState "f9" (Except.error ())).history
        = sampleSchedState.history
    ∧ (handleSendFollowUp sampleSchedState "f9" (Except.error ())).isLoading = false
    ∧ (handleProactiveGreeting sampleSchedState "g9" (Except.error ())).history
        = sampleSchedState.history
    ∧ (handleProactiveGreeting sampleSchedState "g9" (Except.error ())).isLoading = false :=
  transport_failure_per_path sampleSchedState "u9" "r9" "e9" "hey" "f9" "g9" (by decide)

/-- The score of a voice depends only on the gender field of the
character. -/
theorem voiceScore_eq_of_gender (c c' : Character) (h : c.gender = c'.gender)
    (v : Voice) : voiceScore c v = voiceScore c' v := by
  unfold voiceScore
  rw [h]

/-- Every language-filtered voice comes from the given voice list. -/
theorem langFilteredVoices_subset (c : Character) (vs : List Voice) (v : Voice)
    (h : v ∈ langFilteredVoices c vs) : v ∈ vs := by
  simp only [langFilteredVoices] at h
  split at h <;> split at h <;> exact (List.mem_filter.mp h).1

/-- Every sorted voice comes from the given voice list. -/
theorem sortedLangVoices_subset (c : Character) (vs : List Voice) (v : Voice)
    (h : v ∈ sortedLangVoices c vs) : v ∈ vs := by
  unfold sortedLangVoices at h
  exact langFilteredVoices_subset c vs v
    ((List.perm_insertionSort _ _).mem_iff.mp h)

/-- Sorting does not change the number of candidates. -/
theorem sortedLangVoices_length (c : Character) (vs : List Voice) :
    (sortedLangVoices c vs).length = (langFilteredVoices c vs).length :=
  (List.perm_insertionSort _ _).length_eq

/-- C7: the voice selector depends only on the id, gender and language
of the character (so two calls with the same persona and voice set
agree), it returns the graceful no-voice result on an empty voice list,
and on any non-empty voice list it returns some voice drawn from that
list rather than failing. -/
theorem getCharacterVoice_deterministic_and_total :
    (∀ c c' vs, c.id = c'.id → c.gender = c'.gender → c.language = c'.language →
        getCharacterVoice c vs = getCharacterVoice c' vs)
    ∧ (∀ c, getCharacterVoice c [] = none)
    ∧ (∀ c vs, vs ≠ [] → ∃ v, getCharacterVoice c vs = some v ∧ v ∈ vs) := by
  refine ⟨?_, fun c => rfl, ?_⟩
  · intro c c' vs h1 h2 h3
    have hs : ∀ v, voiceScore c v = voiceScore c' v := voiceScore_eq_of_gender c c' h2
    simp only [getCharacterVoice, sortedLangVoices, langFilteredVoices, charCodeSum,
      h1, h2, h3, hs]
  · intro c vs hne
    obtain ⟨a, l, rfl⟩ : ∃ a l, vs = a :: l := by
      cases vs with
      | nil => exact absurd rfl hne
      | cons a l => exact ⟨a, l, rfl⟩
    by_cases hlf : (langFilteredVoices c (a :: l)).isEmpty
    · refine ⟨a, ?_, List.mem_cons_self a l⟩
      simp [getCharacterVoice, hlf]
    · have hflen : (langFilteredVoices c (a :: l)).length ≠ 0 := by
        intro h0
        exact hlf (by simp [List.isEmpty_iff, List.length_eq_zero.mp h0])
      have hslen : 0 < (sortedLangVoices c (a :: l)).length := by
        rw [sortedLangVoices_length]
        exact Nat.pos_of_ne_zero hflen
      have hse : (sortedLangVoices c (a :: l)).isEmpty = false := by
        rw [List.isEmpty_eq_false]
        intro h0
        rw [h0] at hslen
        exact Nat.lt_irrefl 0 hslen
      have hidx : charCodeSum c.id % (sortedLangVoices c (a :: l)).length
          < (sortedLangVoices c (a :: l)).length := Nat.mod_lt _ hslen
      refine ⟨(sortedLangVoices c (a :: l))[charCodeSum c.id % (sortedLangVoices c (a :: l)).length],
        ?_, sortedLangVoices_subset c (a :: l) _ (List.getElem_mem hidx)⟩
      simp only [getCharacterVoice, List.isEmpty_cons, Bool.false_eq_true, if_false, hlf,
        hse, List.getElem?_eq_getElem hidx]

/-- Voice fixture: the Microsoft David desktop voice. -/
def davidVoice : Voice :=
  { name := "Microsoft David", lang := "en-US", localService := true, default := false }

/-- Voice fixture: the Microsoft Zira desktop voice. -/
def ziraVoice : Voice :=
  { name := "Microsoft Zira", lang := "en-US", localService := true, default := false }

/-- Male character whose id has an odd character-code sum. -/
def maleCharacterA : Character :=
  { id := "a", name := "Al", avatar := "", personality := "calm", memory := "",
    purpose := none, gender := Gender.male, language := "en-US",
    voiceProfile := VoiceProfile.medium, voiceSpeed := VoiceSpeed.normal }

/-- Witness for C7 at a concrete character and singleton voice list. -/
theorem getCharacterVoice_deterministic_and_total_witness :
    ∃ v, getCharacterVoice maleCharacterA [davidVoice] = some v ∧ v ∈ [davidVoice] :=
  getCharacterVoice_deterministic_and_total.2.2 maleCharacterA [davidVoice] (by decide)

/-- C6 exhibit: for the male persona with id a (character-code sum 97,
odd), the voice set consisting of Microsoft David (score 113) and
Microsoft Zira (score -37) resolves to Zira, because the id hash is
taken modulo the length of the whole sorted candidate list (here 2)
instead of modulo the number of top-scoring candidates (here 1), in
contradiction with the comment above the hash step in the source and
with the claimed scenario that David is always selected. -/
theorem voice_tiebreak_hash_spans_full_list :
    voiceScore maleCharacterA davidVoice = 113
    ∧ voiceScore maleCharacterA ziraVoice = -37
    ∧ charCodeSum maleCharacterA.id % 2 = 1
    ∧ getCharacterVoice maleCharacterA [davidVoice, ziraVoice] = some ziraVoice := by
  refine ⟨by decide, by decide, by decide, by decide⟩
